import Mathlib

/-!
Verification of the news-parser program (`parse_news.py`).

The program loads an HTML file, walks its element tree with CSS-style
selectors, extracts one news record per accepted card fragment, and groups
the records by rubric (category) into an insertion-ordered dictionary.

The embedding below models:
  * the HTML element tree (`Node`) as produced by the HTML parser;
  * the CSS descendant selectors used by the program (`Node.select`,
    `Node.select_one`), matching elements in document (pre-)order;
  * BeautifulSoup's `get_text(strip=True)` (`getTextStrip`), `get`/`has_attr`
    (`Node.getAttr` / `Node.hasAttr`), and Python's `str.strip` (`pyStrip`);
  * the core functions `parse_news` and `load_html`, and the `main` driver
    (parameterised by the external HTML-text parser and the file system);
  * Python dictionaries as insertion-ordered association lists.
-/

/-- An HTML DOM node: either a text node or an element with a tag name,
a (whitespace-split) class list, an attribute list and children. -/
inductive Node where
  | text (s : String)
  | elem (tag : String) (classes : List String) (attrs : List (String × String)) (children : List Node)

/-- ASCII whitespace, as stripped by Python's `str.strip()`. -/
def isWsChar (c : Char) : Bool :=
  c == ' ' || c == '\t' || c == '\n' || c == '\r'

/-- Python's `str.strip()`: drop leading and trailing whitespace. -/
def pyStrip (s : String) : String :=
  String.mk (((s.toList.dropWhile isWsChar).reverse.dropWhile isWsChar).reverse)

mutual

/-- BeautifulSoup's `get_text(strip=True)`: concatenation of all descendant
text nodes, each stripped of surrounding whitespace. -/
def getTextStrip : Node → String
  | .text s => pyStrip s
  | .elem _ _ _ cs => getTextStripList cs

def getTextStripList : List Node → String
  | [] => ""
  | c :: cs => getTextStrip c ++ getTextStripList cs

end

/-- Attribute lookup on a tag (`tag.get(name)` / `tag[name]` when present). -/
def Node.getAttr : Node → String → Option String
  | .text _, _ => none
  | .elem _ _ attrs _, a => (attrs.find? (fun p => p.1 == a)).map Prod.snd

/-- BeautifulSoup's `tag.has_attr(name)`. -/
def Node.hasAttr (n : Node) (a : String) : Bool :=
  (n.getAttr a).isSome

/-- One compound of a CSS selector: an optional tag-name constraint and a
set of required classes (e.g. `div.node__cart__item.show_views_and_comments`). -/
structure Simple where
  tagName : Option String
  classNames : List String

/-- Does a node satisfy one selector compound? Text nodes never match. -/
def Simple.matchesNode (s : Simple) : Node → Bool
  | .text _ => false
  | .elem t cls _ _ =>
      (match s.tagName with
       | none => true
       | some tn => tn == t) && s.classNames.all (fun c => cls.contains c)

mutual

/-- All element descendants of a node (itself included), in document
(pre-)order, each paired with its chain of ancestors strictly below the
original root, top-down. -/
def descendOne (anc : List Node) : Node → List (List Node × Node)
  | .text _ => []
  | .elem t cl ats cs =>
      (anc, Node.elem t cl ats cs) :: descendList (anc ++ [Node.elem t cl ats cs]) cs

def descendList (anc : List Node) : List Node → List (List Node × Node)
  | [] => []
  | n :: ns => descendOne anc n ++ descendList anc ns

end

/-- Can the (already reversed) leading compounds of a descendant selector be
matched against the (already reversed, i.e. bottom-up) ancestor chain? -/
def chainMatches : List Simple → List Node → Bool
  | [], _ => true
  | _ :: _, [] => false
  | s :: ss, n :: ns => (s.matchesNode n && chainMatches ss ns) || chainMatches (s :: ss) ns

/-- Does a candidate node with ancestor chain `anc` (top-down, root excluded)
match a descendant-combinator selector? The last compound must match the
candidate itself; the earlier compounds must match ancestors, in order. -/
def selMatches (sels : List Simple) (anc : List Node) (n : Node) : Bool :=
  match sels.reverse with
  | [] => false
  | s :: ss => s.matchesNode n && chainMatches ss anc.reverse

/-- Model of `root.select(sels)`: all proper descendants of `root` matching the
selector, in document order (soupsieve semantics of `tag.select`). -/
def Node.select (root : Node) (sels : List Simple) : List Node :=
  ((match root with
    | .text _ => []
    | .elem _ _ _ cs => descendList [] cs) : List (List Node × Node)).filterMap
    (fun p => if selMatches sels p.1 p.2 then some p.2 else none)

/-- Model of `root.select_one(sels)`: the first match in document order, if any. -/
def Node.select_one (root : Node) (sels : List Simple) : Option Node :=
  (root.select sels).head?

/-- Selector of candidate fragments:
`div.node__cart__item.show_views_and_comments`. -/
def fragmentSel : List Simple :=
  [⟨some "div", ["node__cart__item", "show_views_and_comments"]⟩]

/-- Selector of the rubric link: `div.node__cart__item__category_news div a`. -/
def rubricSel : List Simple :=
  [⟨some "div", ["node__cart__item__category_news"]⟩, ⟨some "div", []⟩, ⟨some "a", []⟩]

/-- Selector of the primary link: `a.node__cart__item__inside`. -/
def insideSel : List Simple :=
  [⟨some "a", ["node__cart__item__inside"]⟩]

/-- Selector of the inner content block: `div.node__cart__item__inside__info`. -/
def infoSel : List Simple :=
  [⟨some "div", ["node__cart__item__inside__info"]⟩]

/-- Selector of the title: `div.node__cart__item__inside__info__title span`. -/
def titleSel : List Simple :=
  [⟨some "div", ["node__cart__item__inside__info__title"]⟩, ⟨some "span", []⟩]

/-- Selector of the description: `div.node__cart__item__inside__info__description`. -/
def descriptionSel : List Simple :=
  [⟨some "div", ["node__cart__item__inside__info__description"]⟩]

/-- Selector of the time element: `time`. -/
def timeSel : List Simple :=
  [⟨some "time", []⟩]

/-- A news record: the Python dict built at lines 85-91 of the source,
modelled as an insertion-ordered association list. -/
abbrev NewsItem := List (String × String)

/-- The grouped result: a Python dict from category to list of records,
modelled as an insertion-ordered association list with unique keys. -/
abbrev GroupedNews := List (String × List NewsItem)

/-- Lines 67-70 of the source: the title, or the empty string when the
title span is absent. -/
def titleOf (info : Node) : String :=
  match info.select_one titleSel with
  | some title_span => getTextStrip title_span
  | none => ""

/-- Lines 73-76 of the source: the description, or the empty string when
the description block is absent. -/
def descriptionOf (info : Node) : String :=
  match info.select_one descriptionSel with
  | some desc_div => getTextStrip desc_div
  | none => ""

/-- Lines 80-82 of the source: the machine-readable timestamp, or the empty
string when the time element or its attribute is absent. -/
def datetimeOf (time_tag : Option Node) : String :=
  match time_tag with
  | some t => if t.hasAttr "datetime" then (t.getAttr "datetime").getD "" else ""
  | none => ""

/-- Line 83 of the source: the rendered text of the time element, or the
empty string when it is absent. -/
def timeTextOf (time_tag : Option Node) : String :=
  match time_tag with
  | some t => getTextStrip t
  | none => ""

/-- Lines 85-91 of the source: the five-field record built for an accepted
fragment from its primary link and inner content block. -/
def recordOf (link_tag info : Node) : NewsItem :=
  [("title", titleOf info), ("description", descriptionOf info),
   ("url", pyStrip ((link_tag.getAttr "href").getD "")),
   ("datetime", datetimeOf (info.select_one timeSel)),
   ("time_text", timeTextOf (info.select_one timeSel))]

/-- The body of the `for item in soup.select(...)` loop, up to the record:
`None` means the fragment was skipped by a `continue`. -/
def extractFragment (item : Node) : Option (String × NewsItem) :=
  match item.select_one rubricSel with
  | none => none
  | some rubric_link =>
    let category := getTextStrip rubric_link
    match item.select_one insideSel with
    | none => none
    | some link_tag =>
      match link_tag.select_one infoSel with
      | none => none
      | some info => some (category, recordOf link_tag info)

/-- Lines 94-96 of the source: insert the record into the category's list,
creating the key at the end of the dict on first appearance. -/
def addItem (result : GroupedNews) (category : String) (news_item : NewsItem) : GroupedNews :=
  if result.any (fun p => p.1 == category) then
    result.map (fun p => if p.1 == category then (p.1, p.2 ++ [news_item]) else p)
  else
    result ++ [(category, [news_item])]

/-- One iteration of the loop of `parse_news`. -/
def parseStep (result : GroupedNews) (item : Node) : GroupedNews :=
  match extractFragment item with
  | none => result
  | some (category, news_item) => addItem result category news_item

/-- The loop of `parse_news`, over an explicit list of candidate fragments. -/
def parseFragments (items : List Node) : GroupedNews :=
  items.foldl parseStep []

/-- Model of `parse_news(html)`: select the candidate fragments of the document and
fold them into the grouped dictionary. -/
def parse_news (soup : Node) : GroupedNews :=
  parseFragments (soup.select fragmentSel)

/-- The spec's `aggregate`: fold a sequence of (category, record) pairs into
the grouped dictionary. -/
def aggregate (pairs : List (String × NewsItem)) : GroupedNews :=
  pairs.foldl (fun result p => addItem result p.1 p.2) []

/-- One step of first-seen deduplication: keep the key order of first
appearance. -/
def seenStep (acc : List String) (c : String) : List String :=
  if acc.any (fun x => x == c) then acc else acc ++ [c]

/-- The keys of a sequence in order of first appearance. -/
def firstSeen (l : List String) : List String :=
  l.foldl seenStep []

/-- Specification-side description of the grouped result: keys in first-seen
order, each mapped to the document-order sublist of its records. -/
def groupByFirstSeen (pairs : List (String × NewsItem)) : GroupedNews :=
  (firstSeen (pairs.map Prod.fst)).map
    (fun c => (c, (pairs.filter (fun p => p.1 == c)).map Prod.snd))

/-- The fixed input filename (`INPUT_FILE = "news.html"`). -/
def INPUT_FILE : String := "news.html"

/-- The message of the `FileNotFoundError` raised by `load_html`
(lines 19-23 of the source), verbatim. -/
def notFoundMsg : String :=
  "Файл \x27news.html\x27 не найден. Сначала скачайте страницу из WebArchive и сохраните её как news.html в папку проекта news_parser."

/-- Model of `load_html(path)`, with the file system modelled as a partial map from
paths to contents: raise `FileNotFoundError` when the path does not exist,
otherwise return the file's text. -/
def load_html (fs : String → Option String) (path : String) : Except String String :=
  match fs path with
  | none => Except.error notFoundMsg
  | some content => Except.ok content

/-- The `main` driver up to its parsing step, parameterised by the external
HTML-text parser (`BeautifulSoup`) and the file system: load the fixed input
file, then parse it; on a missing file the error propagates and no result is
produced. -/
def main_run (parseHtml : String → Node) (fs : String → Option String) : Except String GroupedNews :=
  match load_html fs INPUT_FILE with
  | Except.error e => Except.error e
  | Except.ok html => Except.ok (parse_news (parseHtml html))

/-- Substring test on character lists, used to state that an error message
mentions a given filename. -/
def listContainsSub : List Char → List Char → Bool
  | _, [] => true
  | [], _ :: _ => false
  | h :: hs, n :: ns => List.isPrefixOf (n :: ns) (h :: hs) || listContainsSub hs (n :: ns)

/-- Lines 80-82 of the source with the dictionary subscript
`time_tag["datetime"]` modelled faithfully as fallible: it raises
`KeyError` when the attribute is absent. -/
def datetimeOfChk (time_tag : Option Node) : Except String String :=
  match time_tag with
  | some t =>
      if t.hasAttr "datetime" then
        match t.getAttr "datetime" with
        | some v => Except.ok v
        | none => Except.error "KeyError: datetime"
      else Except.ok ""
  | none => Except.ok ""

/-- A variant of `extractFragment` in which the unguarded dictionary
subscript `time_tag["datetime"]` is modelled faithfully as fallible.
Everything else is unchanged. -/
def extractFragmentChk (item : Node) : Except String (Option (String × NewsItem)) :=
  match item.select_one rubricSel with
  | none => Except.ok none
  | some rubric_link =>
    let category := getTextStrip rubric_link
    match item.select_one insideSel with
    | none => Except.ok none
    | some link_tag =>
      match link_tag.select_one infoSel with
      | none => Except.ok none
      | some info =>
        match datetimeOfChk (info.select_one timeSel) with
        | Except.error e => Except.error e
        | Except.ok datetime_iso =>
          Except.ok (some (category,
            [("title", titleOf info), ("description", descriptionOf info),
             ("url", pyStrip ((link_tag.getAttr "href").getD "")),
             ("datetime", datetime_iso),
             ("time_text", timeTextOf (info.select_one timeSel))]))

/-- One iteration of the loop with the fallible subscript: an exception
raised earlier, or in this iteration, aborts the whole run. -/
def parseStepChk (acc : Except String GroupedNews) (item : Node) : Except String GroupedNews :=
  match acc with
  | Except.error e => Except.error e
  | Except.ok result =>
    match extractFragmentChk item with
    | Except.error e => Except.error e
    | Except.ok none => Except.ok result
    | Except.ok (some (category, news_item)) => Except.ok (addItem result category news_item)

/-- The loop of `parse_news` with the fallible subscript. -/
def parseFragmentsChk (items : List Node) : Except String GroupedNews :=
  items.foldl parseStepChk (Except.ok [])

/-- The whole of `parse_news` with the fallible subscript. -/
def parse_news_chk (soup : Node) : Except String GroupedNews :=
  parseFragmentsChk (soup.select fragmentSel)

/-- A complete accepted fragment: rubric "Society", title, description and
time all present. -/
def fragA : Node :=
  Node.elem "div" ["node__cart__item", "show_views_and_comments"] []
    [Node.elem "div" ["node__cart__item__category_news"] []
      [Node.elem "div" [] []
        [Node.elem "a" [] [("href", "/rubric")] [Node.text " Society "]]],
     Node.elem "a" ["node__cart__item__inside"] [("href", " http://example.com/a ")]
      [Node.elem "div" ["node__cart__item__inside__info"] []
        [Node.elem "div" ["node__cart__item__inside__info__title"] []
          [Node.elem "span" [] [] [Node.text "X"]],
         Node.elem "div" ["node__cart__item__inside__info__description"] [] [Node.text "D"],
         Node.elem "time" [] [("datetime", "2024-01-01T10:00")] [Node.text " 10:00 "]]]]

/-- An accepted fragment with rubric "Army" and title only: no description
and no time element. -/
def fragB : Node :=
  Node.elem "div" ["node__cart__item", "show_views_and_comments"] []
    [Node.elem "div" ["node__cart__item__category_news"] []
      [Node.elem "div" [] []
        [Node.elem "a" [] [] [Node.text "Army"]]],
     Node.elem "a" ["node__cart__item__inside"] [("href", "u2")]
      [Node.elem "div" ["node__cart__item__inside__info"] []
        [Node.elem "div" ["node__cart__item__inside__info__title"] []
          [Node.elem "span" [] [] [Node.text "Y"]]]]]

/-- A fragment in which the rubric link and the primary link both resolve
but the primary link has no inner `info` block. -/
def fragNoInfo : Node :=
  Node.elem "div" ["node__cart__item", "show_views_and_comments"] []
    [Node.elem "div" ["node__cart__item__category_news"] []
      [Node.elem "div" [] []
        [Node.elem "a" [] [] [Node.text "Cat"]]],
     Node.elem "a" ["node__cart__item__inside"] [("href", "u3")] [Node.text "bare"]]

/-- A fragment with no rubric link. -/
def fragNoRubric : Node :=
  Node.elem "div" ["node__cart__item", "show_views_and_comments"] []
    [Node.elem "a" ["node__cart__item__inside"] [("href", "u4")]
      [Node.elem "div" ["node__cart__item__inside__info"] []
        [Node.elem "div" ["node__cart__item__inside__info__title"] []
          [Node.elem "span" [] [] [Node.text "Z"]]]]]

/-- A fragment with a rubric link but no primary link. -/
def fragNoInside : Node :=
  Node.elem "div" ["node__cart__item", "show_views_and_comments"] []
    [Node.elem "div" ["node__cart__item__category_news"] []
      [Node.elem "div" [] []
        [Node.elem "a" [] [] [Node.text "Cat"]]]]

/-- A fragment whose rubric link exists but contains only whitespace text. -/
def fragWsRubric : Node :=
  Node.elem "div" ["node__cart__item", "show_views_and_comments"] []
    [Node.elem "div" ["node__cart__item__category_news"] []
      [Node.elem "div" [] []
        [Node.elem "a" [] [] [Node.text "   "]]],
     Node.elem "a" ["node__cart__item__inside"] [("href", "u5")]
      [Node.elem "div" ["node__cart__item__inside__info"] []
        [Node.elem "div" ["node__cart__item__inside__info__title"] []
          [Node.elem "span" [] [] [Node.text "W"]]]]]

/-- A document with no candidate fragment. -/
def docEmpty : Node :=
  Node.elem "html" [] [] [Node.elem "div" ["other"] [] [Node.text "hi"]]

/-- The primary link subtree of `fragB`. -/
def linkB : Node :=
  Node.elem "a" ["node__cart__item__inside"] [("href", "u2")]
    [Node.elem "div" ["node__cart__item__inside__info"] []
      [Node.elem "div" ["node__cart__item__inside__info__title"] []
        [Node.elem "span" [] [] [Node.text "Y"]]]]

/-- The inner content block of `fragB`. -/
def infoB : Node :=
  Node.elem "div" ["node__cart__item__inside__info"] []
    [Node.elem "div" ["node__cart__item__inside__info__title"] []
      [Node.elem "span" [] [] [Node.text "Y"]]]

/-- The record extracted from `fragB`. -/
def recB : NewsItem :=
  [("title", "Y"), ("description", ""), ("url", "u2"), ("datetime", ""), ("time_text", "")]

/-- The rubric link subtree of `fragWsRubric`. -/
def wsRubricA : Node :=
  Node.elem "a" [] [] [Node.text "   "]

/-- The primary link subtree of `fragWsRubric`. -/
def wsLink : Node :=
  Node.elem "a" ["node__cart__item__inside"] [("href", "u5")]
    [Node.elem "div" ["node__cart__item__inside__info"] []
      [Node.elem "div" ["node__cart__item__inside__info__title"] []
        [Node.elem "span" [] [] [Node.text "W"]]]]

/-- The inner content block of `fragWsRubric`. -/
def wsInfo : Node :=
  Node.elem "div" ["node__cart__item__inside__info"] []
    [Node.elem "div" ["node__cart__item__inside__info__title"] []
      [Node.elem "span" [] [] [Node.text "W"]]]

/-- A file system with no files at all. -/
def fsEmpty : String → Option String :=
  fun _ => none

/-- A file system holding only the default input file. -/
def fsWithNews : String → Option String :=
  fun p => if p == "news.html" then some "<html></html>" else none

example : pyStrip "  a b " = "a b" := by decide

example :
    getTextStrip (Node.elem "div" [] [] [Node.text "  a ", Node.text "b "]) = "ab" := by decide

example :
    extractFragment fragA =
      some ("Society",
        [("title", "X"), ("description", "D"), ("url", "http://example.com/a"),
         ("datetime", "2024-01-01T10:00"), ("time_text", "10:00")]) := by decide

example :
    extractFragment fragB =
      some ("Army",
        [("title", "Y"), ("description", ""), ("url", "u2"),
         ("datetime", ""), ("time_text", "")]) := by decide

example : extractFragment fragNoInfo = none := by decide

example : extractFragment fragNoRubric = none := by decide

example : extractFragment fragNoInside = none := by decide

example :
    parse_news (Node.elem "html" [] [] [fragA, fragB]) =
      [("Society",
        [[("title", "X"), ("description", "D"), ("url", "http://example.com/a"),
          ("datetime", "2024-01-01T10:00"), ("time_text", "10:00")]]),
       ("Army",
        [[("title", "Y"), ("description", ""), ("url", "u2"),
          ("datetime", ""), ("time_text", "")]])] := by decide

example : parse_news docEmpty = [] := by decide

lemma any_map_general {α β : Type} (l : List α) (f : α → β) (p : β → Bool) :
    (l.map f).any p = l.any (fun a => p (f a)) := by
  induction l with
  | nil => rfl
  | cons a as ih => simp [List.any_cons, ih]

/-- A fragment is accepted by `extractFragment` exactly when the rubric
link, the primary link and the primary link's inner info block all
resolve. -/
lemma extractFragment_isSome_iff (item : Node) :
    (extractFragment item).isSome = true ↔
      ((item.select_one rubricSel).isSome = true ∧
        ∃ link_tag, item.select_one insideSel = some link_tag ∧
          (link_tag.select_one infoSel).isSome = true) := by
  unfold extractFragment
  cases hr : item.select_one rubricSel with
  | none => simp
  | some rubric_link =>
    cases hl : item.select_one insideSel with
    | none => simp
    | some link_tag =>
      cases hi : link_tag.select_one infoSel with
      | none => simp [hi]
      | some info => simp [hi]

/-- The success equation of the loop body: when the three gating lookups
resolve, the record is built from the primary link and the inner block. -/
lemma extractFragment_eq_some (item rl lt info : Node)
    (hr : item.select_one rubricSel = some rl)
    (hl : item.select_one insideSel = some lt)
    (hi : lt.select_one infoSel = some info) :
    extractFragment item = some (getTextStrip rl, recordOf lt info) := by
  unfold extractFragment
  simp only [hr, hl, hi]

/-- A fragment missing a gating element is skipped. -/
lemma extractFragment_eq_none_of_gate (item : Node)
    (h : item.select_one rubricSel = none ∨ item.select_one insideSel = none) :
    extractFragment item = none := by
  cases he : extractFragment item with
  | none => rfl
  | some p =>
    have hs : (extractFragment item).isSome = true := by simp [he]
    rcases (extractFragment_isSome_iff item).mp hs with ⟨h1, link_tag, h2, _⟩
    rcases h with h | h
    · simp [h] at h1
    · simp [h] at h2

/-- The loop of `parse_news` is the aggregation of the per-fragment
extraction results. -/
lemma foldl_parseStep_eq (items : List Node) :
    ∀ r : GroupedNews,
      items.foldl parseStep r =
        (items.filterMap extractFragment).foldl (fun result p => addItem result p.1 p.2) r := by
  induction items with
  | nil => intro r; rfl
  | cons i is ih =>
    intro r
    cases h : extractFragment i with
    | none => simp [List.foldl_cons, List.filterMap_cons, h, parseStep, ih]
    | some p =>
      cases p with
      | mk c ni => simp [List.foldl_cons, List.filterMap_cons, h, parseStep, ih]

lemma parseFragments_eq_aggregate (items : List Node) :
    parseFragments items = aggregate (items.filterMap extractFragment) :=
  foldl_parseStep_eq items []

lemma aggregate_append_singleton (ps : List (String × NewsItem)) (p : String × NewsItem) :
    aggregate (ps ++ [p]) = addItem (aggregate ps) p.1 p.2 := by
  simp [aggregate, List.foldl_append]

lemma firstSeen_append_singleton (l : List String) (d : String) :
    firstSeen (l ++ [d]) = seenStep (firstSeen l) d := by
  simp [firstSeen, List.foldl_append]

/-- The function `firstSeen` has exactly the members of its input. -/
lemma firstSeen_any (l : List String) (c : String) :
    (firstSeen l).any (fun x => x == c) = l.any (fun x => x == c) := by
  induction l using List.reverseRecOn with
  | nil => rfl
  | append_singleton l d ih =>
    rw [firstSeen_append_singleton, seenStep]
    by_cases hd : (firstSeen l).any (fun x => x == d) = true
    · rw [if_pos hd, List.any_append, ih]
      by_cases hdc : d = c
      · subst hdc
        rw [ih] at hd
        simp [hd]
      · have : (d == c) = false := by simp [hdc]
        simp [this]
    · rw [if_neg hd, List.any_append, List.any_append, ih]

/-- The central ordering lemma: the dictionary built by repeated
`addItem` insertions lists categories in first-seen order and, within a
category, the records in input order. -/
lemma aggregate_eq_groupByFirstSeen (pairs : List (String × NewsItem)) :
    aggregate pairs = groupByFirstSeen pairs := by
  induction pairs using List.reverseRecOn with
  | nil => rfl
  | append_singleton ps p ih =>
    rw [aggregate_append_singleton, ih]
    unfold groupByFirstSeen
    simp only [List.map_append, List.map_cons, List.map_nil]
    rw [firstSeen_append_singleton]
    unfold addItem seenStep
    rw [any_map_general]
    by_cases hin :
        (firstSeen (List.map Prod.fst ps)).any (fun c => c == p.1) = true
    · have hc :
          ((firstSeen (List.map Prod.fst ps)).any
            (fun c =>
              (c, (List.filter (fun q => q.1 == c) ps).map Prod.snd).1 == p.1)) = true := by
        simpa using hin
      rw [if_pos hc, if_pos (by simpa using hin), List.map_map]
      apply List.map_congr_left
      intro c _
      by_cases hcp : c = p.1
      · subst hcp
        simp [List.filter_append, List.filter_cons]
      · have h1 : (c == p.1) = false := by simp [hcp]
        have h2 : (p.1 == c) = false := by
          cases hcb : (p.1 == c) with
          | false => rfl
          | true => exact absurd (beq_iff_eq.mp hcb).symm hcp
        simp [List.filter_append, List.filter_cons, h1, h2, hcp]
    · have hin2 : (firstSeen (List.map Prod.fst ps)).any (fun c => c == p.1) = false := by
        simp only [Bool.not_eq_true] at hin
        exact hin
      have hanyfst : (List.map Prod.fst ps).any (fun x => x == p.1) = false := by
        rw [← firstSeen_any]
        exact hin2
      have hnotin : ∀ q ∈ ps, (q.1 == p.1) = false := by
        intro q hq
        have := List.any_eq_false.mp hanyfst q.1 (List.mem_map_of_mem Prod.fst hq)
        simpa using this
      have hfilter_nil : List.filter (fun q => q.1 == p.1) ps = [] :=
        List.filter_eq_nil_iff.mpr (fun q hq => by simp [hnotin q hq])
      rw [if_neg (by simp [hin2]), if_neg (by simp [hin2]), List.map_append]
      congr 1
      · apply List.map_congr_left
        intro c hc
        have h1 : (c == p.1) = false := by
          cases hcb : (c == p.1) with
          | false => rfl
          | true => exact absurd hcb (List.any_eq_false.mp hin2 c hc)
        have hne : c ≠ p.1 := by
          intro h
          rw [h] at h1
          simp at h1
        have h2 : (p.1 == c) = false := by
          cases hcb : (p.1 == c) with
          | false => rfl
          | true => exact absurd (beq_iff_eq.mp hcb).symm hne
        simp [List.filter_append, List.filter_cons, h2]
      · simp [List.filter_append, List.filter_cons, hfilter_nil]


/-- The fallible-subscript variant of the loop body never raises: the
subscript is evaluated only under the presence guard of the attribute. -/
lemma datetimeOfChk_eq (time_tag : Option Node) :
    datetimeOfChk time_tag = Except.ok (datetimeOf time_tag) := by
  cases time_tag with
  | none => rfl
  | some t =>
    cases hha : t.hasAttr "datetime" with
    | false => simp [datetimeOfChk, datetimeOf, hha]
    | true =>
      have hs : (t.getAttr "datetime").isSome = true := hha
      rcases Option.isSome_iff_exists.mp hs with ⟨v, hv⟩
      simp [datetimeOfChk, datetimeOf, hha, hv]

lemma extractFragmentChk_eq (item : Node) :
    extractFragmentChk item = Except.ok (extractFragment item) := by
  simp only [extractFragmentChk, extractFragment]
  split
  · rfl
  · split
    · rfl
    · split
      · rfl
      · rw [datetimeOfChk_eq]
        rfl

/-- The fallible-subscript variant of the whole loop never raises. -/
lemma foldl_parseStepChk_eq (items : List Node) :
    ∀ r : GroupedNews,
      items.foldl parseStepChk (Except.ok r) = Except.ok (items.foldl parseStep r) := by
  induction items with
  | nil => intro r; rfl
  | cons i is ih =>
    intro r
    rw [List.foldl_cons, List.foldl_cons]
    have hstep : parseStepChk (Except.ok r) i = Except.ok (parseStep r i) := by
      rw [parseStepChk, extractFragmentChk_eq i, parseStep]
      cases h : extractFragment i with
      | none => rfl
      | some p => cases p with | mk c ni => rfl
    rw [hstep, ih]

/-- Every record produced by `extractFragment` is the five-key dictionary in
the fixed key order, with string values. -/
lemma extractFragment_shape (item : Node) (c : String) (ni : NewsItem)
    (h : extractFragment item = some (c, ni)) :
    ∃ t d u dt tt,
      ni = [("title", t), ("description", d), ("url", u),
            ("datetime", dt), ("time_text", tt)] := by
  unfold extractFragment at h
  split at h
  · exact absurd h (by simp)
  · split at h
    · exact absurd h (by simp)
    · split at h
      · exact absurd h (by simp)
      · simp only [Option.some.injEq, Prod.mk.injEq] at h
        exact ⟨_, _, _, _, _, h.2.symm⟩

/-- Every record in the output of `parse_news` is the extraction result of
one of the document's candidate fragments, under its own category key. -/
lemma mem_parse_news (soup : Node) (c : String) (its : List NewsItem) (ni : NewsItem)
    (h1 : (c, its) ∈ parse_news soup) (h2 : ni ∈ its) :
    ∃ item ∈ soup.select fragmentSel, extractFragment item = some (c, ni) := by
  rw [parse_news, parseFragments_eq_aggregate, aggregate_eq_groupByFirstSeen] at h1
  unfold groupByFirstSeen at h1
  rcases List.mem_map.mp h1 with ⟨c0, hc0, heq⟩
  have hc : c0 = c := congrArg Prod.fst heq
  subst hc
  have hits : List.map Prod.snd
      (List.filter (fun q => q.1 == c0) ((soup.select fragmentSel).filterMap extractFragment)) =
        its := congrArg Prod.snd heq
  rw [← hits] at h2
  rcases List.mem_map.mp h2 with ⟨pair, hpair, hsnd⟩
  rcases List.mem_filter.mp hpair with ⟨hmem, hfst⟩
  rcases List.mem_filterMap.mp hmem with ⟨item, hitem, hext⟩
  refine ⟨item, hitem, ?_⟩
  have : pair = (c0, ni) := by
    rcases pair with ⟨pc, pn⟩
    have h3 : pc = c0 := beq_iff_eq.mp hfst
    have h4 : pn = ni := hsnd
    rw [h3, h4]
  rw [← this]
  exact hext

/-- Claim C1, counterexample: in this fragment the rubric link and the
primary link both resolve, yet `parse_news` emits no record for it, because
the primary link has no inner content block — so the two gating checks are
not the only conditions under which a fragment is dropped. -/
theorem C1_counterexample :
    (fragNoInfo.select_one rubricSel).isSome = true ∧
    (fragNoInfo.select_one insideSel).isSome = true ∧
    (Node.elem "html" [] [] [fragNoInfo]).select fragmentSel = [fragNoInfo] ∧
    parse_news (Node.elem "html" [] [] [fragNoInfo]) = [] := by
  refine ⟨by decide, by decide, by rfl, by decide⟩

/-- Claim C1, amended: a candidate fragment yields a record exactly when the
rubric link, the primary link, and the primary link's inner content block
all resolve — these three gating checks are the only conditions under which
a fragment is dropped; missing title, description or time sub-elements
never cause a skip, and each accepted fragment contributes exactly one
record to the result. -/
theorem C1_three_gates :
    (∀ item : Node,
        (extractFragment item).isSome = true ↔
          ((item.select_one rubricSel).isSome = true ∧
            ∃ link_tag, item.select_one insideSel = some link_tag ∧
              (link_tag.select_one infoSel).isSome = true)) ∧
    (∀ item c ni, extractFragment item = some (c, ni) →
        parseFragments [item] = [(c, [ni])]) := by
  constructor
  · exact extractFragment_isSome_iff
  · intro item c ni h
    simp [parseFragments, parseStep, h, addItem]

/-- Claim C1, witness for the amended statement at a concrete fragment. -/
theorem C1_witness :
    parseFragments [fragB] = [("Army", [recB])] :=
  C1_three_gates.2 fragB "Army" recB (by decide)

/-- Claim C2: a candidate fragment whose rubric link or primary link is
absent contributes nothing to the result — no partial record — and the
remaining fragments are processed exactly as if it were not there; the
model returns only the grouped mapping, so nothing else (no warning, no
abort) is produced for the skipped fragment. -/
theorem C2_gating_skip (pre post : List Node) (f : Node)
    (h : f.select_one rubricSel = none ∨ f.select_one insideSel = none) :
    parseFragments (pre ++ f :: post) = parseFragments (pre ++ post) := by
  have hf : extractFragment f = none := extractFragment_eq_none_of_gate f h
  have hstep : ∀ r : GroupedNews, parseStep r f = r := by
    intro r
    unfold parseStep
    rw [hf]
  unfold parseFragments
  rw [List.foldl_append, List.foldl_append, List.foldl_cons, hstep]

/-- Claim C2, witness: dropping a rubric-less fragment in the middle of a
run leaves the result of the remaining fragments unchanged. -/
theorem C2_witness :
    parseFragments [fragA, fragNoRubric, fragB] = parseFragments [fragA, fragB] :=
  C2_gating_skip [fragA] [fragB] fragNoRubric (Or.inl (by rfl))

/-- Claim C3: the result of `parse_news` lists category keys in order of
first appearance among the accepted fragments (in document order), and each
category's list holds, in document order, exactly the records of the
accepted fragments assigned to it — no sorting, deduplication or merging. -/
theorem C3_grouping_order (soup : Node) :
    parse_news soup =
      groupByFirstSeen ((soup.select fragmentSel).filterMap extractFragment) := by
  unfold parse_news
  rw [parseFragments_eq_aggregate, aggregate_eq_groupByFirstSeen]

/-- Claim C4: every record in the output has exactly the five keys
`title`, `description`, `url`, `datetime`, `time_text` in this order, each
with a string value (by the type of `NewsItem`); and when the title,
description or time sub-structure is missing, the corresponding field is
the empty string while the record is still emitted. -/
theorem C4_record_fields :
    (∀ soup c its ni, (c, its) ∈ parse_news soup → ni ∈ its →
        ni.map Prod.fst = ["title", "description", "url", "datetime", "time_text"]) ∧
    (∀ item c ni link_tag info,
        item.select_one insideSel = some link_tag →
        link_tag.select_one infoSel = some info →
        extractFragment item = some (c, ni) →
        ((info.select_one titleSel = none → ("title", "") ∈ ni) ∧
         (info.select_one descriptionSel = none → ("description", "") ∈ ni) ∧
         (info.select_one timeSel = none →
            ("datetime", "") ∈ ni ∧ ("time_text", "") ∈ ni))) := by
  constructor
  · intro soup c its ni h1 h2
    rcases mem_parse_news soup c its ni h1 h2 with ⟨item, _, hext⟩
    rcases extractFragment_shape item c ni hext with ⟨t, d, u, dt, tt, rfl⟩
    rfl
  · intro item c ni link_tag info hl hi hext
    have hs : (extractFragment item).isSome = true := by simp [hext]
    rcases (extractFragment_isSome_iff item).mp hs with ⟨hrs, lt2, hl2, hi2⟩
    rcases Option.isSome_iff_exists.mp hrs with ⟨rl, hr⟩
    have heq := extractFragment_eq_some item rl link_tag info hr hl hi
    rw [hext] at heq
    have hni : ni = recordOf link_tag info := ((Prod.mk.injEq _ _ _ _).mp (Option.some.inj heq)).2
    subst hni
    refine ⟨?_, ?_, ?_⟩
    · intro hnone
      simp [recordOf, titleOf, hnone]
    · intro hnone
      simp [recordOf, descriptionOf, hnone]
    · intro hnone
      constructor
      · simp [recordOf, datetimeOf, hnone]
      · simp [recordOf, timeTextOf, hnone]

/-- Claim C4, witness at a concrete fragment whose description and time
sub-structures are missing. -/
theorem C4_witness :
    recB.map Prod.fst = ["title", "description", "url", "datetime", "time_text"] ∧
      ("description", "") ∈ recB ∧ ("datetime", "") ∈ recB ∧ ("time_text", "") ∈ recB := by
  refine ⟨C4_record_fields.1 (Node.elem "html" [] [] [fragB]) "Army" [recB] recB
      (by decide) (by decide), ?_, ?_, ?_⟩
  · exact (C4_record_fields.2 fragB "Army" recB linkB infoB
      (by rfl) (by rfl) (by rfl)).2.1 (by rfl)
  · exact ((C4_record_fields.2 fragB "Army" recB linkB infoB
      (by rfl) (by rfl) (by rfl)).2.2 (by rfl)).1
  · exact ((C4_record_fields.2 fragB "Army" recB linkB infoB
      (by rfl) (by rfl) (by rfl)).2.2 (by rfl)).2

/-- Claim C5: `parse_news` is a pure function of the parsed document — it
is modelled as a mathematical function with no state and no effects — so
two runs on the same document yield structurally identical results (same
mapping, same key order, same field values). -/
theorem C5_deterministic (s1 s2 : Node) (h : s1 = s2) :
    parse_news s1 = parse_news s2 := by
  rw [h]

/-- Claim C5, witness: two runs on a concrete document agree. -/
theorem C5_witness :
    parse_news (Node.elem "html" [] [] [fragA, fragB]) =
      parse_news (Node.elem "html" [] [] [fragA, fragB]) :=
  C5_deterministic (Node.elem "html" [] [] [fragA, fragB])
    (Node.elem "html" [] [] [fragA, fragB]) rfl

/-- Claim C6: a document with zero candidate fragments yields the empty
mapping, and the aggregation fold is total on any pair sequence — in
particular it maps the empty sequence to the empty mapping. -/
theorem C6_empty_result :
    (∀ soup : Node, soup.select fragmentSel = [] → parse_news soup = []) ∧
    aggregate [] = [] := by
  constructor
  · intro soup h
    unfold parse_news
    rw [h]
    rfl
  · rfl

/-- Claim C6, witness: a concrete fragment-free document yields the empty
mapping. -/
theorem C6_witness : parse_news docEmpty = [] ∧ aggregate [] = [] :=
  ⟨C6_empty_result.1 docEmpty (by rfl), C6_empty_result.2⟩

/-- Claim C7: `load_html` fails exactly when the path does not exist; the
error carries the fixed descriptive message (which names the expected file
`news.html` and how to obtain it, as the substring check records); when the
file exists its full text is returned; and on a missing input file `main`
stops with that error before any parsing, producing no result. -/
theorem C7_load_html_spec (fs : String → Option String) (p : String) :
    ((∃ e, load_html fs p = Except.error e) ↔ fs p = none) ∧
    (fs p = none → load_html fs p = Except.error notFoundMsg) ∧
    (∀ content, fs p = some content → load_html fs p = Except.ok content) ∧
    listContainsSub notFoundMsg.toList INPUT_FILE.toList = true ∧
    (∀ parseHtml, fs INPUT_FILE = none →
        main_run parseHtml fs = Except.error notFoundMsg) := by
  refine ⟨⟨?_, ?_⟩, ?_, ?_, by decide, ?_⟩
  · rintro ⟨e, he⟩
    cases hf : fs p with
    | none => rfl
    | some content =>
      unfold load_html at he
      rw [hf] at he
      simp at he
  · intro hf
    refine ⟨notFoundMsg, ?_⟩
    unfold load_html
    rw [hf]
  · intro hf
    unfold load_html
    rw [hf]
  · intro content hf
    unfold load_html
    rw [hf]
  · intro parseHtml hf
    unfold main_run load_html
    rw [hf]

/-- Claim C7, witness: on an empty file system the run fails with the fixed
message; when the input file exists its text is returned. -/
theorem C7_witness :
    load_html fsEmpty "news.html" = Except.error notFoundMsg ∧
    load_html fsWithNews "news.html" = Except.ok "<html></html>" ∧
    main_run (fun _ => docEmpty) fsEmpty = Except.error notFoundMsg :=
  ⟨(C7_load_html_spec fsEmpty "news.html").2.1 rfl,
   (C7_load_html_spec fsWithNews "news.html").2.2.1 "<html></html>" (by decide),
   (C7_load_html_spec fsEmpty "news.html").2.2.2.2 (fun _ => docEmpty) rfl⟩

/-- Claim C8: `parse_news` never raises: the variant in which the
subscript `time_tag["datetime"]` is modelled as fallible (raising
`KeyError` when the attribute is absent) returns `ok` of the pure result on
every document, because the subscript is evaluated only under the guard
`time_tag and time_tag.has_attr("datetime")`; every other lookup is an
optional value checked before use. -/
theorem C8_no_exception (soup : Node) :
    parse_news_chk soup = Except.ok (parse_news soup) := by
  unfold parse_news_chk parse_news parseFragmentsChk parseFragments
  exact foldl_parseStepChk_eq (soup.select fragmentSel) []

/-- Claim C9: the rubric gate only tests presence of the rubric link: a
fragment whose rubric link exists but has empty (e.g. whitespace-only)
stripped text is still accepted, and its record is grouped under the
empty-string category key. -/
theorem C9_whitespace_rubric (item rubric_link link_tag info : Node)
    (h1 : item.select_one rubricSel = some rubric_link)
    (h2 : getTextStrip rubric_link = "")
    (h3 : item.select_one insideSel = some link_tag)
    (h4 : link_tag.select_one infoSel = some info) :
    extractFragment item = some ("", recordOf link_tag info) ∧
    parseFragments [item] = [("", [recordOf link_tag info])] := by
  have he := extractFragment_eq_some item rubric_link link_tag info h1 h3 h4
  rw [h2] at he
  refine ⟨he, ?_⟩
  simp [parseFragments, parseStep, he, addItem]

/-- Claim C9, witness at a concrete fragment whose rubric link holds only
whitespace. -/
theorem C9_witness :
    extractFragment fragWsRubric = some ("", recordOf wsLink wsInfo) ∧
      parseFragments [fragWsRubric] = [("", [recordOf wsLink wsInfo])] :=
  C9_whitespace_rubric fragWsRubric wsRubricA wsLink wsInfo
    (by rfl) (by decide) (by rfl) (by rfl)

/-- Claim C10: the file-not-found message is fixed: whatever path was
actually checked and found missing, the error is the same message naming
the default filename `news.html` (so a caller who overrides the path is
told about `news.html`, not about the path that was checked). -/
theorem C10_fixed_message (fs : String → Option String) (p : String)
    (h : fs p = none) :
    load_html fs p = Except.error notFoundMsg ∧
      listContainsSub notFoundMsg.toList INPUT_FILE.toList = true := by
  constructor
  · unfold load_html
    rw [h]
  · decide

/-- Claim C10, witness: a caller using a custom path still gets the message
about `news.html`. -/
theorem C10_witness :
    load_html fsEmpty "custom_path.html" = Except.error notFoundMsg ∧
      listContainsSub notFoundMsg.toList INPUT_FILE.toList = true :=
  C10_fixed_message fsEmpty "custom_path.html" rfl
